import Mathlib

/-!
Shallow embedding of the Todo API deployment and rollback orchestrator
(Express server health endpoint, CI/CD deploy script, health-verification
polling loop, Docker Hub rollback tag selection, and the MongoDB
backup/restore shell tooling), together with theorems settling the
specification claims about them.
-/

/-! ## A minimal JSON value model for HTTP response bodies -/

/-- JSON values, restricted to the shapes the embedded handlers emit. -/
inductive Json where
  | str (s : String)
  | boolean (b : Bool)
  | num (n : Nat)
  | obj (fields : List (String × Json))

/-- Field lookup on a JSON object; `none` on non-objects and absent keys. -/
def Json.get? (j : Json) (key : String) : Option Json :=
  match j with
  | .obj fields => fields.lookup key
  | _ => none

/-- Descend through a path of object keys. -/
def Json.at? : Json → List String → Option Json
  | j, [] => some j
  | j, k :: ks => match j.get? k with
    | some v => v.at? ks
    | none => none

/-- String value found at a path of object keys, if any. -/
def Json.strAt (j : Json) (path : List String) : Option String :=
  match j.at? path with
  | some (.str s) => some s
  | _ => none

/-- Boolean value found at a path of object keys, if any. -/
def Json.boolAt (j : Json) (path : List String) : Option Bool :=
  match j.at? path with
  | some (.boolean b) => some b
  | _ => none

/-- An HTTP response: status code plus decoded JSON body. -/
structure HttpResponse where
  status : Nat
  body : Json

/-! ## src/src/utils/database.js — DatabaseConnection -/

/-- Observable state of the mongoose connection as read by
`DatabaseConnection`: the `isConnected` flag, whether an
`admin().ping()` would succeed (with its error message when not), and
the `mongoose.connection` fields reported by `getConnectionStatus`. -/
structure DbState where
  isConnected : Bool
  pingOk : Bool
  pingError : String
  readyState : Nat
  host : String
  port : Nat
  name : String
deriving Repr, DecidableEq

/-- The `connection` object returned by
`DatabaseConnection.getConnectionStatus`. -/
structure ConnStatus where
  isConnected : Bool
  readyState : Nat
  host : String
  port : Nat
  name : String
deriving Repr, DecidableEq

def DatabaseConnection.getConnectionStatus (db : DbState) : ConnStatus :=
  ⟨db.isConnected, db.readyState, db.host, db.port, db.name⟩

/-- The `{ status, message }` object returned by
`DatabaseConnection.healthCheck`. -/
structure HealthStatus where
  status : String
  message : String
deriving Repr, DecidableEq

/-- Method `DatabaseConnection.healthCheck`: returns `disconnected` when the
flag is down, `healthy` when the ping succeeds, `unhealthy` otherwise.
Every branch (including the catch) returns a value, so the function is
total — it never throws. The healthy branch of the source also attaches
a `details` object that no caller reads; it is omitted here. -/
def DatabaseConnection.healthCheck (db : DbState) : HealthStatus :=
  if !db.isConnected then ⟨"disconnected", "Database not connected"⟩
  else if db.pingOk then ⟨"healthy", "Database connection is healthy"⟩
  else ⟨"unhealthy", "Database health check failed: " ++ db.pingError⟩

/-! ## src/src/server.js — GET /health handler -/

/-- The `GET /health` route body of server.js, parameterized over the
outcome of the awaited `healthCheck()` call (`Except.error` stands for
the awaited call throwing, which lands in the route's catch block and
produces the 503 response). -/
def healthRoute (dbHealth : Except String HealthStatus) (conn : ConnStatus)
    (timestamp : String) : HttpResponse :=
  match dbHealth with
  | .ok h =>
    ⟨200, .obj [
      ("success", .boolean true),
      ("message", .str "API is running"),
      ("timestamp", .str timestamp),
      ("database", .obj [
        ("status", .str h.status),
        ("message", .str h.message),
        ("connection", .obj [
          ("isConnected", .boolean conn.isConnected),
          ("readyState", .num conn.readyState),
          ("host", .str conn.host),
          ("port", .num conn.port),
          ("name", .str conn.name)])])]⟩
  | .error e =>
    ⟨503, .obj [
      ("success", .boolean false),
      ("message", .str "Service unavailable"),
      ("timestamp", .str timestamp),
      ("database", .obj [
        ("status", .str "error"),
        ("message", .str e)])]⟩

/-- The deployed service's `GET /health` endpoint: `healthCheck` is
total, so the awaited call always resolves (`Except.ok`) and the route
takes its 200 branch. -/
def healthEndpoint (db : DbState) (timestamp : String) : HttpResponse :=
  healthRoute (.ok (DatabaseConnection.healthCheck db))
    (DatabaseConnection.getConnectionStatus db) timestamp

/-! ## src/unnamed deploy script (CI/CD deploy.sh) — deployment outcome -/

/-- Helper for `curl -f`: it succeeds exactly when the HTTP status is below 400. -/
def curlFOk (r : HttpResponse) : Bool :=
  decide (r.status < 400)

inductive DeployResult where
  | succeeded
  | failedDeployment
  | failedHealthCheck
deriving Repr, DecidableEq

/-- Tail of the CI/CD deploy script: run the Ansible playbook, then
probe `/health` once with `curl -f -s`; exit 0 (Succeeded) only when
both pass. The probe discards the response body (`> /dev/null`). -/
def deployScript (ansibleOk : Bool) (healthResp : HttpResponse) : DeployResult :=
  if ansibleOk then
    if curlFOk healthResp then .succeeded else .failedHealthCheck
  else .failedDeployment

/-! ## tests/integration/deployment-integration.test.js — waitForApplicationReady -/

/-- One poll of the health endpoint as observed by axios: either a
response with a status and decoded body, or a transport-level error. -/
inductive PollResult where
  | response (status : Nat) (body : Json)
  | netError

/-- axios rejects (throws) on transport errors and, with its default
`validateStatus`, on any HTTP status outside the 2xx range. -/
def axiosThrows : PollResult → Bool
  | .netError => true
  | .response s _ => !(200 ≤ s && s < 300)

/-- HTTP status of a poll, when a response was received at all. -/
def pollStatus? : PollResult → Option Nat
  | .response s _ => some s
  | .netError => none

inductive WaitOutcome where
  | readyAfter (attempt : Nat)
  | notReadyError
  | fellThrough
deriving Repr, DecidableEq

/-- Trace of one `waitForApplicationReady` invocation: how it ended,
how many polls it made, and how many fixed-interval (15 s) sleeps it
performed. -/
structure WaitTrace where
  outcome : WaitOutcome
  polls : Nat
  sleeps : Nat
deriving Repr, DecidableEq

/-- Body of `waitForApplicationReady`'s for-loop, driven by the number
of remaining iterations (`maxAttempts - attempt + 1` at entry). A poll
that resolves with status 200 returns immediately; a poll that throws
either rethrows on the last attempt or sleeps 15 s and retries; a poll
that resolves with a 2xx status other than 200 falls through to the
next iteration without sleeping; a loop that runs out of iterations
returns normally without an error. -/
def waitLoopAux (respond : Nat → PollResult) (maxAttempts : Nat) :
    Nat → Nat → WaitTrace
  | _, 0 => ⟨.fellThrough, 0, 0⟩
  | attempt, remaining + 1 =>
    if axiosThrows (respond attempt) then
      if attempt = maxAttempts then ⟨.notReadyError, 1, 0⟩
      else
        let t := waitLoopAux respond maxAttempts (attempt + 1) remaining
        ⟨t.outcome, t.polls + 1, t.sleeps + 1⟩
    else if pollStatus? (respond attempt) = some 200 then
      ⟨.readyAfter attempt, 1, 0⟩
    else
      let t := waitLoopAux respond maxAttempts (attempt + 1) remaining
      ⟨t.outcome, t.polls + 1, t.sleeps⟩

/-- Function `waitForApplicationReady(serverIp, maxAttempts)`: poll `/health`
starting at attempt 1, up to `maxAttempts` iterations. Each invocation
starts from attempt 1 — nothing is cached across calls. -/
def waitForApplicationReady (respond : Nat → PollResult) (maxAttempts : Nat) :
    WaitTrace :=
  waitLoopAux respond maxAttempts 1 maxAttempts

/-! ## scripts/rollback.sh — rollback tag selection -/

/-- Function `get_previous_tag`: the Docker Hub tag listing (names in API
order, most recently pushed first) is piped through
`select(.name != "latest" and .name != $current) | .name` and the
first surviving line is taken (`head -1`). -/
def get_previous_tag (results : List String) (current : String) : Option String :=
  (results.filter (fun n => n != "latest" && n != current)).head?

inductive RollbackSelection where
  | candidate (tag : String)
  | noCandidateError
deriving Repr, DecidableEq

/-- Caller of `get_previous_tag` in rollback.sh: an empty selection
(`ROLLBACK_TAG` empty) aborts with "Could not determine previous
version to rollback to." and exit 1. -/
def selectRollback (tags : List String) (current : String) : RollbackSelection :=
  match get_previous_tag tags current with
  | some t => .candidate t
  | none => .noCandidateError

/-! ## scripts/backup-restore.sh — backup/restore manager

The remote MongoDB is abstracted as the list of documents of the
`todoapp` database; `mongodump` captures that list and `mongorestore`
reinserts a captured list, per the external tool contract. The backup
directory holds compressed archives (name ↦ captured snapshot) and any
uncompressed working copies; the container's `/tmp` holds dump
directories. Outcomes of the individual remote commands are inputs. -/

/-- Exit status of each external command used by a backup/restore run. -/
structure BackupEnv where
  containerRunning : Bool
  dumpOk : Bool
  cpOk : Bool
  tarOk : Bool
  extractOk : Bool
  cpToContainerOk : Bool
  restoreOk : Bool
deriving Repr, DecidableEq

/-- State touched by backup-restore.sh on the target host. -/
structure HostState where
  db : List String
  archives : List (String × List String)
  working : List (String × List String)
  containerTmp : List (String × List String)
deriving Repr, DecidableEq

/-- Destructive steps a backup-restore.sh action can take. -/
inductive DestructiveAction where
  | dropDatabase
  | loadDump (backupName : String)
  | deleteBackups (names : List String)
deriving Repr, DecidableEq

structure BackupOutcome where
  success : Bool
  state : HostState
deriving Repr, DecidableEq

/-- Function `create_backup`: mongodump to `/tmp/<name>` in the container, then
`docker cp` the dump into the backup directory, then
`tar -czf <name>.tar.gz <name> && rm -rf <name>` (overwriting any
archive with the same name), then best-effort removal of the
container's `/tmp` copy. Each `|| { log_error; return 1 }` guard stops
at the failed step; no step removes what earlier steps produced. -/
def create_backup (env : BackupEnv) (st : HostState) (backup_name : String) :
    BackupOutcome :=
  if !env.dumpOk then ⟨false, st⟩
  else
    let st1 := { st with containerTmp := (backup_name, st.db) :: st.containerTmp }
    if !env.cpOk then ⟨false, st1⟩
    else
      let st2 := { st1 with working := (backup_name, st.db) :: st1.working }
      if !env.tarOk then ⟨false, st2⟩
      else
        let st3 := { st2 with
          archives :=
            (backup_name, st.db) :: st2.archives.filter (fun a => a.1 != backup_name),
          working := st2.working.filter (fun w => w.1 != backup_name) }
        let st4 := { st3 with
          containerTmp := st3.containerTmp.filter (fun t => t.1 != backup_name) }
        ⟨true, st4⟩

/-- The `backup` action of the script's main dispatch: it first checks
that the MongoDB container is running (`check_mongodb_container`) and
exits 1 before `create_backup` when it is not. -/
def backupAction (env : BackupEnv) (st : HostState) (backup_name : String) :
    BackupOutcome :=
  if !env.containerRunning then ⟨false, st⟩
  else create_backup env st backup_name

inductive RestoreResult where
  | restored
  | cancelled
  | notFound
  | failed
deriving Repr, DecidableEq

structure RestoreOutcome where
  result : RestoreResult
  state : HostState
  actions : List DestructiveAction
deriving Repr, DecidableEq

/-- Function `restore_backup`: require `<name>.tar.gz` to exist; prompt
"Type 'yes' to confirm" and return 0 untouched unless the reply is
exactly `yes`; then extract the archive, copy it into the container,
drop the database (failure tolerated), `mongorestore` the dump, and
clean up the working copies. -/
def restore_backup (env : BackupEnv) (st : HostState)
    (backup_name reply : String) : RestoreOutcome :=
  match st.archives.lookup backup_name with
  | none => ⟨.notFound, st, []⟩
  | some snapshot =>
    if reply != "yes" then ⟨.cancelled, st, []⟩
    else
      if !env.extractOk then ⟨.failed, st, []⟩
      else
        let st1 := { st with working := (backup_name, snapshot) :: st.working }
        if !env.cpToContainerOk then ⟨.failed, st1, []⟩
        else
          let st2 := { st1 with
            containerTmp := (backup_name, snapshot) :: st1.containerTmp }
          let st3 := { st2 with db := [] }
          if !env.restoreOk then ⟨.failed, st3, [.dropDatabase]⟩
          else
            let st4 := { st3 with db := snapshot }
            let st5 := { st4 with
              working := st4.working.filter (fun w => w.1 != backup_name),
              containerTmp :=
                st4.containerTmp.filter (fun t => t.1 != backup_name) }
            ⟨.restored, st5, [.dropDatabase, .loadDump backup_name]⟩

structure CleanupOutcome where
  deletedCount : Nat
  remaining : List (String × Nat)
  actions : List DestructiveAction
deriving Repr, DecidableEq

/-- Function `cleanup_backups` over the backup directory seen as name/age pairs
(age in days, as tested by `find -mtime +N`): list archives strictly
older than the retention window; if none, return with nothing deleted;
otherwise prompt `(y/N)` and delete them only on a `y`/`Y` reply. -/
def cleanup_backups (ages : List (String × Nat)) (retention : Nat)
    (reply : String) : CleanupOutcome :=
  let old := ages.filter (fun a => retention < a.2)
  if old.isEmpty then ⟨0, ages, []⟩
  else if !(reply == "y" || reply == "Y") then ⟨0, ages, []⟩
  else
    ⟨old.length, ages.filter (fun a => !(retention < a.2)),
      [.deleteBackups (old.map Prod.fst)]⟩

/-! ## src/unnamed SSL deployment script — production deploy flow -/

inductive DeployStep where
  | buildImage
  | sslInit
  | composeUp
  | healthProbe
deriving Repr, DecidableEq

/-- Steps 2–3 of the production flow of the full deployment script:
Step 2 always runs `docker build -t todo-api:latest .`, Step 3 always
starts the services (preceded by SSL initialization unless skipped) and
probes `/health` once. The script never reads which artifact is
currently deployed: `currentTag` and `requestedTag` do not influence
the steps taken, so no short-circuit happens when they coincide. -/
def deployProduction (currentTag requestedTag : String)
    (skipSSL healthOk : Bool) : List DeployStep × Bool :=
  let _ := currentTag
  let _ := requestedTag
  let steps :=
    [DeployStep.buildImage]
      ++ (if skipSSL then [DeployStep.composeUp]
          else [DeployStep.sslInit, DeployStep.composeUp])
      ++ [DeployStep.healthProbe]
  (steps, healthOk)

/-! ## src/src/routes/todos.js — id-parameterized routes -/

/-- The ObjectId validation of the `:id` routes:
`id.match(/^[0-9a-fA-F]{24}$/)` — exactly 24 hexadecimal characters. -/
def matchesObjectIdPattern (id : String) : Bool :=
  id.length == 24 &&
    id.toList.all (fun c =>
      c.isDigit || ('a' ≤ c && c ≤ 'f') || ('A' ≤ c && c ≤ 'F'))

structure Todo where
  title : String
  description : String
  completed : Bool
deriving Repr, DecidableEq

/-- The todos collection as a list of id/document pairs. -/
abbrev TodoStore := List (String × Todo)

/-- Result of one `:id` route invocation: HTTP status, the `error`
field of the body (when present), the collection afterwards, and
whether any database query was issued. -/
structure RouteOutcome where
  status : Nat
  error : Option String
  store : TodoStore
  dbAccessed : Bool
deriving Repr, DecidableEq

/-- Route `GET /todos/:id`: validate the id format before any query; then
`findById`, answering 404 when absent and 200 when found. -/
def getTodoById (st : TodoStore) (id : String) : RouteOutcome :=
  if !matchesObjectIdPattern id then ⟨400, some "Validation Error", st, false⟩
  else
    match st.lookup id with
    | none => ⟨404, some "Not Found", st, true⟩
    | some _ => ⟨200, none, st, true⟩

/-- Request body of `PUT /todos/:id` (absent fields are `undefined`). -/
structure UpdateBody where
  title : Option String
  description : Option String
  completed : Option Bool
deriving Repr, DecidableEq

/-- The update document built by `PUT /todos/:id` applied to the
existing todo. -/
def applyUpdate (todo : Todo) (body : UpdateBody) : Todo :=
  { title := match body.title with
      | some t => t.trim
      | none => todo.title,
    description := match body.description with
      | some d => d.trim
      | none => todo.description,
    completed := match body.completed with
      | some b => b
      | none => todo.completed }

/-- Route `PUT /todos/:id`: validate the id format before any query; then
`findById` (404 when absent), reject an empty provided title, and
`findByIdAndUpdate` otherwise. -/
def updateTodoById (st : TodoStore) (id : String) (body : UpdateBody) :
    RouteOutcome :=
  if !matchesObjectIdPattern id then ⟨400, some "Validation Error", st, false⟩
  else
    match st.lookup id with
    | none => ⟨404, some "Not Found", st, true⟩
    | some _ =>
      let titleEmpty := match body.title with
        | some t => t.trim == ""
        | none => false
      if titleEmpty then ⟨400, some "Validation Error", st, true⟩
      else
        ⟨200, none,
          st.map (fun kv => if kv.1 == id then (kv.1, applyUpdate kv.2 body) else kv),
          true⟩

/-- Route `DELETE /todos/:id`: validate the id format before any query; then
`findByIdAndDelete`, answering 404 when absent. -/
def deleteTodoById (st : TodoStore) (id : String) : RouteOutcome :=
  if !matchesObjectIdPattern id then ⟨400, some "Validation Error", st, false⟩
  else
    match st.lookup id with
    | none => ⟨404, some "Not Found", st, true⟩
    | some _ => ⟨200, none, st.filter (fun kv => kv.1 != id), true⟩

/-! ## Concrete database states used by scenario theorems -/

/-- A connected database answering pings. -/
def dbHealthyState : DbState := ⟨true, true, "", 1, "mongodb", 27017, "todoapp"⟩

/-- A connected database whose ping fails, so `healthCheck` reports
`unhealthy`. -/
def dbUnhealthyState : DbState :=
  ⟨true, false, "ping timed out", 1, "mongodb", 27017, "todoapp"⟩

/-! ## Claim theorems -/

/-- C9: for every database connection state (connected, disconnected,
or failing its ping), GET /health answers HTTP 200 with success true
and embeds the database status in the body; the 503 branch of the
route is taken only when the awaited health check throws, and
`healthCheck` never throws — every branch, including its catch,
returns a status object. -/
theorem c9_health_route_always_200 :
    (∀ (db : DbState) (ts : String),
      (healthEndpoint db ts).status = 200 ∧
      (healthEndpoint db ts).body.boolAt ["success"] = some true ∧
      (healthEndpoint db ts).body.strAt ["database", "status"]
        = some (DatabaseConnection.healthCheck db).status) ∧
    (∀ (r : Except String HealthStatus) (conn : ConnStatus) (ts : String),
      (healthRoute r conn ts).status = 503 → ∃ e, r = .error e) := by
  constructor
  · intro db ts
    refine ⟨rfl, ?_, ?_⟩ <;>
      simp [healthEndpoint, healthRoute, Json.boolAt, Json.strAt, Json.at?,
        Json.get?, List.lookup]
  · intro r conn ts h
    cases r with
    | ok s => simp [healthRoute] at h
    | error e => exact ⟨e, rfl⟩

/-- C1 is false on the code: with a connected, ping-answering database
the deploy script reports success, yet the subsequent GET /health body
has no top-level `status` field at all, and its `database.status` is
`"healthy"`, not `"connected"`. -/
theorem c1_counterexample :
    deployScript true (healthEndpoint dbHealthyState "t") = .succeeded ∧
    ((healthEndpoint dbHealthyState "t").body.get? "status").isNone = true ∧
    (healthEndpoint dbHealthyState "t").body.strAt ["database", "status"]
      = some "healthy" ∧
    ¬((healthEndpoint dbHealthyState "t").body.strAt ["database", "status"]
      = some "connected") :=
  ⟨rfl, rfl, rfl, by decide⟩

/-- C1 (amended): if `deploy(T,A)` returns Succeeded, a subsequent
GET /health on T (with the database state unchanged) returns HTTP 200
with top-level `success` true; the body carries no top-level `status`
field, and its `database.status` field is `"healthy"` — never
`"connected"` — whenever the database is connected and answering
pings. -/
theorem c1_amended_deploy_succeeded_health (db : DbState) (a : Bool)
    (ts ts2 : String)
    (h : deployScript a (healthEndpoint db ts) = .succeeded) :
    (healthEndpoint db ts2).status = 200 ∧
    (healthEndpoint db ts2).body.boolAt ["success"] = some true ∧
    ((healthEndpoint db ts2).body.get? "status").isNone = true ∧
    (db.isConnected = true → db.pingOk = true →
      (healthEndpoint db ts2).body.strAt ["database", "status"]
        = some "healthy") := by
  refine ⟨rfl, ?_, ?_, ?_⟩
  · simp [healthEndpoint, healthRoute, Json.boolAt, Json.at?, Json.get?,
      List.lookup]
  · simp [healthEndpoint, healthRoute, Json.get?, List.lookup]
  · intro hc hp
    simp [healthEndpoint, healthRoute, DatabaseConnection.healthCheck, hc, hp,
      Json.strAt, Json.at?, Json.get?, List.lookup]

/-- Witness for the amended C1 at a concrete healthy deployment. -/
theorem c1_amended_witness :
    (healthEndpoint dbHealthyState "t2").status = 200 ∧
    (healthEndpoint dbHealthyState "t2").body.boolAt ["success"] = some true ∧
    ((healthEndpoint dbHealthyState "t2").body.get? "status").isNone = true ∧
    (dbHealthyState.isConnected = true → dbHealthyState.pingOk = true →
      (healthEndpoint dbHealthyState "t2").body.strAt ["database", "status"]
        = some "healthy") :=
  c1_amended_deploy_succeeded_health dbHealthyState true "t" "t2" rfl

/-- C10: every `:id` route (GET, PUT, DELETE) checks the 24-character
hexadecimal format before issuing any database query; a malformed id
gets HTTP 400 with error "Validation Error", the collection is left
unchanged, and no query runs — so it can produce neither 404 nor 500
nor any data change. -/
theorem c10_invalid_id_rejected_before_db (st : TodoStore) (id : String)
    (body : UpdateBody) (h : matchesObjectIdPattern id = false) :
    getTodoById st id = ⟨400, some "Validation Error", st, false⟩ ∧
    updateTodoById st id body = ⟨400, some "Validation Error", st, false⟩ ∧
    deleteTodoById st id = ⟨400, some "Validation Error", st, false⟩ := by
  refine ⟨?_, ?_, ?_⟩ <;>
    simp [getTodoById, updateTodoById, deleteTodoById, h]

/-- Witness for C10 at the malformed id "abc". -/
theorem c10_witness :
    matchesObjectIdPattern "abc" = false ∧
    getTodoById [] "abc" = ⟨400, some "Validation Error", [], false⟩ ∧
    updateTodoById [] "abc" ⟨none, none, none⟩
      = ⟨400, some "Validation Error", [], false⟩ ∧
    deleteTodoById [] "abc" = ⟨400, some "Validation Error", [], false⟩ :=
  ⟨by decide,
    c10_invalid_id_rejected_before_db [] "abc" ⟨none, none, none⟩ (by decide)⟩

/-- C8: evaluating the production deploy flow at a request whose tag
equals the currently deployed tag: the flow still rebuilds the image
and restarts the services — there is no no-op short-circuit, although
the specification requires one (it flags the current always-redeploy
behavior as incorrect). -/
theorem c8_redeploys_when_tag_unchanged :
    deployProduction "v1.1.0" "v1.1.0" true true
      = ([DeployStep.buildImage, DeployStep.composeUp,
          DeployStep.healthProbe], true) ∧
    DeployStep.buildImage ∈ (deployProduction "v1.1.0" "v1.1.0" true true).1 ∧
    DeployStep.composeUp ∈ (deployProduction "v1.1.0" "v1.1.0" true true).1 :=
  ⟨rfl, by decide, by decide⟩

/-- Environment in which every remote command of backup-restore.sh
exits zero. -/
def allCommandsOk : BackupEnv := ⟨true, true, true, true, true, true, true⟩

/-- Environment in which the compress step (`tar -czf`) fails while
everything before it succeeds. -/
def tarFailEnv : BackupEnv := ⟨true, true, true, false, true, true, true⟩

/-- C7 is false on the code: when the compress step fails after the
dump was copied to the host, `create_backup` returns failure but the
uncompressed working copy is left sitting in the backup directory —
nothing deletes partial artifacts on failure. -/
theorem c7_counterexample :
    (backupAction tarFailEnv ⟨["r1"], [], [], []⟩ "b1").success = false ∧
    (backupAction tarFailEnv ⟨["r1"], [], [], []⟩ "b1").state.working
      = [("b1", ["r1"])] :=
  ⟨rfl, rfl⟩

/-- C7 (amended): a backup invocation fails (non-zero) when the
MongoDB container is down or when the dump, copy, or compress command
exits non-zero, and failures before the copy leave the backup
directory unchanged; but there is no delete-on-failure: a compress
failure leaves the uncompressed working copy in the backup
directory. -/
theorem c7_amended_backup_failure_behavior (env : BackupEnv) (st : HostState)
    (name : String) :
    (env.containerRunning = false → backupAction env st name = ⟨false, st⟩) ∧
    (env.containerRunning = true → env.dumpOk = false →
      (backupAction env st name).success = false ∧
      (backupAction env st name).state = st) ∧
    (env.containerRunning = true → env.dumpOk = true → env.cpOk = false →
      (backupAction env st name).success = false ∧
      (backupAction env st name).state.working = st.working ∧
      (backupAction env st name).state.archives = st.archives) ∧
    (env.containerRunning = true → env.dumpOk = true → env.cpOk = true →
      env.tarOk = false →
      (backupAction env st name).success = false ∧
      (name, st.db) ∈ (backupAction env st name).state.working) := by
  refine ⟨?_, ?_, ?_, ?_⟩
  · intro h; simp [backupAction, h]
  · intro h1 h2; simp [backupAction, create_backup, h1, h2]
  · intro h1 h2 h3; simp [backupAction, create_backup, h1, h2, h3]
  · intro h1 h2 h3 h4; simp [backupAction, create_backup, h1, h2, h3, h4]

/-- Witness for the amended C7 at the concrete compress-failure run. -/
theorem c7_amended_witness :
    (backupAction tarFailEnv ⟨["r1"], [], [], []⟩ "b1").success = false ∧
    ("b1", ["r1"]) ∈ (backupAction tarFailEnv ⟨["r1"], [], [], []⟩ "b1").state.working :=
  (c7_amended_backup_failure_behavior tarFailEnv ⟨["r1"], [], [], []⟩ "b1").2.2.2
    rfl rfl rfl rfl

/-- C6: a backup taken at record count c, followed by two additional
records, followed by a confirmed restore of that backup, brings the
database back to exactly the backed-up records — record count c, the
later records gone (the external dump/load tools are modelled as
capturing and reinserting the database's documents, per the backup
artifact contract). -/
theorem c6_backup_restore_round_trip (db : List String) (r1 r2 : String)
    (archives working tmp : List (String × List String)) (name : String) :
    (restore_backup allCommandsOk
        { (backupAction allCommandsOk ⟨db, archives, working, tmp⟩ name).state with
          db := (backupAction allCommandsOk ⟨db, archives, working, tmp⟩ name).state.db
            ++ [r1, r2] }
        name "yes").state.db = db ∧
    (restore_backup allCommandsOk
        { (backupAction allCommandsOk ⟨db, archives, working, tmp⟩ name).state with
          db := (backupAction allCommandsOk ⟨db, archives, working, tmp⟩ name).state.db
            ++ [r1, r2] }
        name "yes").state.db.length = db.length := by
  constructor <;>
    simp [backupAction, create_backup, restore_backup, allCommandsOk,
      List.lookup]

/-- C5: a restore whose confirmation reply is not exactly `yes`, and a
cleanup whose reply is not `y`/`Y`, perform no destructive step: the
database, archives, and backup records are untouched and the recorded
destructive-action trace is empty; restore stops at the confirmation
point (or earlier, when the named backup does not exist). -/
theorem c5_no_destruction_without_confirmation (env : BackupEnv)
    (st : HostState) (backup_name reply : String)
    (ages : List (String × Nat)) (retention : Nat) (creply : String)
    (hr : reply ≠ "yes") (hc : creply ≠ "y" ∧ creply ≠ "Y") :
    ((restore_backup env st backup_name reply).state = st ∧
     (restore_backup env st backup_name reply).actions = [] ∧
     ((restore_backup env st backup_name reply).result = .cancelled ∨
      (restore_backup env st backup_name reply).result = .notFound)) ∧
    ((cleanup_backups ages retention creply).remaining = ages ∧
     (cleanup_backups ages retention creply).actions = [] ∧
     (cleanup_backups ages retention creply).deletedCount = 0) := by
  constructor
  · cases hlook : st.archives.lookup backup_name with
    | none => simp [restore_backup, hlook]
    | some snapshot => simp [restore_backup, hlook, hr]
  · by_cases hold : (ages.filter (fun a => retention < a.2)).isEmpty
    · simp [cleanup_backups, hold]
    · simp [cleanup_backups, hold, hc.1, hc.2]

/-- Witness for C5: declined restore and cleanup on a concrete host
state leave everything untouched. -/
theorem c5_witness :
    ((restore_backup allCommandsOk ⟨["r"], [("b1", ["r"])], [], []⟩ "b1" "n").state
        = ⟨["r"], [("b1", ["r"])], [], []⟩ ∧
     (restore_backup allCommandsOk ⟨["r"], [("b1", ["r"])], [], []⟩ "b1" "n").actions
        = [] ∧
     ((restore_backup allCommandsOk ⟨["r"], [("b1", ["r"])], [], []⟩ "b1" "n").result
        = .cancelled ∨
      (restore_backup allCommandsOk ⟨["r"], [("b1", ["r"])], [], []⟩ "b1" "n").result
        = .notFound)) ∧
    ((cleanup_backups [("b1", 9)] 7 "n").remaining = [("b1", 9)] ∧
     (cleanup_backups [("b1", 9)] 7 "n").actions = [] ∧
     (cleanup_backups [("b1", 9)] 7 "n").deletedCount = 0) :=
  c5_no_destruction_without_confirmation allCommandsOk
    ⟨["r"], [("b1", ["r"])], [], []⟩ "b1" "n" [("b1", 9)] 7 "n"
    (by decide) ⟨by decide, by decide⟩

/-- One-step unfolding of the polling loop on a positive iteration
count. -/
theorem waitLoopAux_succ (respond : Nat → PollResult)
    (maxAttempts attempt remaining : Nat) :
    waitLoopAux respond maxAttempts attempt (remaining + 1)
      = if axiosThrows (respond attempt) then
          if attempt = maxAttempts then ⟨.notReadyError, 1, 0⟩
          else
            let t := waitLoopAux respond maxAttempts (attempt + 1) remaining
            ⟨t.outcome, t.polls + 1, t.sleeps + 1⟩
        else if pollStatus? (respond attempt) = some 200 then
          ⟨.readyAfter attempt, 1, 0⟩
        else
          let t := waitLoopAux respond maxAttempts (attempt + 1) remaining
          ⟨t.outcome, t.polls + 1, t.sleeps⟩ := rfl

/-- When every poll throws, the remaining-iterations loop makes one
poll per iteration, sleeps between consecutive polls only, and ends by
rethrowing on the last attempt. -/
theorem waitLoopAux_all_throw (respond : Nat → PollResult) (N : Nat)
    (hfail : ∀ i, axiosThrows (respond i) = true) :
    ∀ (remaining attempt : Nat), attempt + remaining = N →
      waitLoopAux respond N attempt (remaining + 1)
        = ⟨.notReadyError, remaining + 1, remaining⟩ := by
  intro remaining
  induction remaining with
  | zero =>
    intro attempt h
    have hA : attempt = N := by omega
    rw [waitLoopAux_succ, hfail attempt, if_pos rfl, if_pos hA]
  | succ r ih =>
    intro attempt h
    have hne : ¬(attempt = N) := by omega
    have hrec := ih (attempt + 1) (by omega)
    rw [waitLoopAux_succ, hfail attempt, if_pos rfl, if_neg hne]
    simp [hrec]

/-- C3: for every maxAttempts N ≥ 1 against an endpoint none of whose
polls ever succeeds, the verifier makes exactly N polls, sleeps the
fixed interval exactly N−1 times (only between consecutive polls), and
terminates with the not-ready error; the verifier is a function of the
current invocation's polls alone, starting from attempt 1, so no
success carries over between invocations. -/
theorem c3_verify_exhausts_exactly_n_polls (respond : Nat → PollResult)
    (N : Nat) (hN : 1 ≤ N)
    (hfail : ∀ i, axiosThrows (respond i) = true) :
    waitForApplicationReady respond N = ⟨.notReadyError, N, N - 1⟩ := by
  obtain ⟨m, rfl⟩ : ∃ m, N = m + 1 := ⟨N - 1, by omega⟩
  have h := waitLoopAux_all_throw respond (m + 1) hfail m 1 (by omega)
  simpa [waitForApplicationReady] using h

/-- Witness for C3: an always-unreachable endpoint with 3 attempts
yields 3 polls, 2 sleeps, and the not-ready error. -/
theorem c3_witness :
    waitForApplicationReady (fun _ => PollResult.netError) 3
      = ⟨.notReadyError, 3, 2⟩ :=
  c3_verify_exhausts_exactly_n_polls (fun _ => PollResult.netError) 3
    (by decide) (fun _ => rfl)

/-- C2 is false on the code: a poll that answers HTTP 200 with a body
reporting the dependent data store unhealthy is accepted on the very
first attempt — the verifier returns ready after one poll with no
retry, because it checks only the HTTP status and never decodes the
body. -/
theorem c2_counterexample :
    (healthEndpoint dbUnhealthyState "t").status = 200 ∧
    (healthEndpoint dbUnhealthyState "t").body.strAt ["database", "status"]
      = some "unhealthy" ∧
    waitForApplicationReady
      (fun _ => PollResult.response (healthEndpoint dbUnhealthyState "t").status
        (healthEndpoint dbUnhealthyState "t").body) 20
      = ⟨.readyAfter 1, 1, 0⟩ :=
  ⟨rfl, rfl, rfl⟩

/-- A ready outcome can only come from a poll whose HTTP status was
exactly 200. -/
theorem waitLoopAux_ready_has_status_200 (respond : Nat → PollResult)
    (N : Nat) :
    ∀ (fuel attempt a : Nat),
      (waitLoopAux respond N attempt fuel).outcome = .readyAfter a →
      pollStatus? (respond a) = some 200 := by
  intro fuel
  induction fuel with
  | zero => intro attempt a h; simp [waitLoopAux] at h
  | succ f ih =>
    intro attempt a h
    rw [waitLoopAux_succ] at h
    by_cases h1 : axiosThrows (respond attempt) = true
    · rw [h1, if_pos rfl] at h
      by_cases h2 : attempt = N
      · rw [if_pos h2] at h
        simp at h
      · rw [if_neg h2] at h
        exact ih (attempt + 1) a h
    · rw [if_neg h1] at h
      by_cases h3 : pollStatus? (respond attempt) = some 200
      · rw [if_pos h3] at h
        simp at h
        exact h ▸ h3
      · rw [if_neg h3] at h
        exact ih (attempt + 1) a h

/-- C2 (amended): a poll response counts as healthy exactly when its
HTTP status is 200 — the body, including the dependent data store's
status, is never inspected. Consequently a ready outcome always comes
from an HTTP-200 poll, and an HTTP-200 first poll (whatever its body
says) ends the verification immediately with one poll and no retry. -/
theorem c2_amended_healthy_is_http_200_only (respond : Nat → PollResult)
    (N : Nat) :
    (∀ a, (waitForApplicationReady respond N).outcome = .readyAfter a →
      pollStatus? (respond a) = some 200) ∧
    (1 ≤ N → pollStatus? (respond 1) = some 200 →
      waitForApplicationReady respond N = ⟨.readyAfter 1, 1, 0⟩) := by
  constructor
  · intro a h
    exact waitLoopAux_ready_has_status_200 respond N N 1 a h
  · intro hN h200
    obtain ⟨m, rfl⟩ : ∃ m, N = m + 1 := ⟨N - 1, by omega⟩
    have hnothrow : ¬(axiosThrows (respond 1) = true) := by
      cases hr : respond 1 with
      | response s b =>
        have hs : s = 200 := by
          rw [hr] at h200
          simpa [pollStatus?] using h200
        subst hs
        simp [axiosThrows]
      | netError =>
        rw [hr] at h200
        simp [pollStatus?] at h200
    show waitLoopAux respond (m + 1) 1 (m + 1) = ⟨.readyAfter 1, 1, 0⟩
    rw [waitLoopAux_succ, if_neg hnothrow, if_pos h200]

/-- Witness for the amended C2: an HTTP-200 poll with an arbitrary
body (here an empty object, reporting nothing about the data store) is
accepted on the first attempt. -/
theorem c2_amended_witness :
    waitForApplicationReady (fun _ => PollResult.response 200 (Json.obj [])) 20
      = ⟨.readyAfter 1, 1, 0⟩ :=
  (c2_amended_healthy_is_http_200_only
    (fun _ => PollResult.response 200 (Json.obj [])) 20).2 (by decide) rfl

/-- C4: rollback candidate selection drops the mutable alias tag
`latest` and the currently deployed tag and takes the first remaining
entry of the registry listing: whatever it returns is a listed tag
distinct from both exclusions; whenever some such tag is listed, a
candidate is returned (so the current tag or alias is never returned
while another tag remains); when none remains the selection fails; and
on tags [v1.0.0, v1.1.0, latest] with current v1.1.0 the candidate is
v1.0.0. -/
theorem c4_rollback_selection (tags : List String) (current : String) :
    (∀ t, selectRollback tags current = .candidate t →
      t ∈ tags ∧ t ≠ current ∧ t ≠ "latest") ∧
    ((∃ t, t ∈ tags ∧ t ≠ current ∧ t ≠ "latest") →
      ∃ t, selectRollback tags current = .candidate t) ∧
    ((∀ t, t ∈ tags → t = current ∨ t = "latest") →
      selectRollback tags current = .noCandidateError) ∧
    (∀ pre t post, tags = pre ++ t :: post →
      (∀ u, u ∈ pre → u = current ∨ u = "latest") →
      t ≠ current → t ≠ "latest" →
      selectRollback tags current = .candidate t) ∧
    selectRollback ["v1.0.0", "v1.1.0", "latest"] "v1.1.0"
      = .candidate "v1.0.0" := by
  refine ⟨?_, ?_, ?_, ?_, by decide⟩
  · intro t h
    have hh : get_previous_tag tags current = some t := by
      unfold selectRollback at h
      cases hx : get_previous_tag tags current with
      | none => simp [hx] at h
      | some u => simp [hx] at h; rw [h]
    unfold get_previous_tag at hh
    have hmem : t ∈ tags.filter (fun n => n != "latest" && n != current) := by
      cases hl : tags.filter (fun n => n != "latest" && n != current) with
      | nil => rw [hl] at hh; exact absurd hh (by simp)
      | cons a as =>
        rw [hl] at hh
        simp at hh
        subst hh
        exact hl ▸ List.mem_cons_self a as
    rw [List.mem_filter] at hmem
    obtain ⟨ht, hp⟩ := hmem
    simp only [Bool.and_eq_true, bne_iff_ne, ne_eq] at hp
    exact ⟨ht, hp.2, hp.1⟩
  · rintro ⟨t, ht, hcur, hlat⟩
    have hmem : t ∈ tags.filter (fun n => n != "latest" && n != current) := by
      rw [List.mem_filter]
      refine ⟨ht, ?_⟩
      simp only [Bool.and_eq_true, bne_iff_ne, ne_eq]
      exact ⟨hlat, hcur⟩
    cases hl : tags.filter (fun n => n != "latest" && n != current) with
    | nil => rw [hl] at hmem; simp at hmem
    | cons a as =>
      exact ⟨a, by simp [selectRollback, get_previous_tag, hl]⟩
  · intro hall
    have hnil : tags.filter (fun n => n != "latest" && n != current) = [] := by
      rw [List.filter_eq_nil_iff]
      intro a ha
      rcases hall a ha with h | h <;> simp [h]
    simp [selectRollback, get_previous_tag, hnil]
  · intro pre t post htags hpre hcur hlat
    have hprenil : pre.filter (fun n => n != "latest" && n != current) = [] := by
      rw [List.filter_eq_nil_iff]
      intro a ha
      rcases hpre a ha with h | h <;> simp [h]
    have hpt : ((t != "latest") && (t != current)) = true := by
      simp only [Bool.and_eq_true, bne_iff_ne, ne_eq]
      exact ⟨hlat, hcur⟩
    subst htags
    have hfilter :
        (pre ++ t :: post).filter (fun n => n != "latest" && n != current)
          = t :: post.filter (fun n => n != "latest" && n != current) := by
      rw [List.filter_append, hprenil]
      simp [List.filter_cons, hpt]
    unfold selectRollback get_previous_tag
    rw [hfilter]
    simp

/-- Witness for C4 at the specified scenario listing. -/
theorem c4_witness :
    selectRollback ["v1.0.0", "v1.1.0", "latest"] "v1.1.0"
      = .candidate "v1.0.0" ∧
    ("v1.0.0" ∈ (["v1.0.0", "v1.1.0", "latest"] : List String) ∧
      "v1.0.0" ≠ "v1.1.0" ∧ "v1.0.0" ≠ "latest") := by
  have h := c4_rollback_selection ["v1.0.0", "v1.1.0", "latest"] "v1.1.0"
  exact ⟨h.2.2.2.2, h.1 "v1.0.0" h.2.2.2.2⟩

/-- Witness for C9: the 200 branch at a concrete healthy state, and
the 503 branch arising from a concrete thrown error. -/
theorem c9_witness :
    ((healthEndpoint dbHealthyState "t").status = 200 ∧
     (healthEndpoint dbHealthyState "t").body.boolAt ["success"] = some true ∧
     (healthEndpoint dbHealthyState "t").body.strAt ["database", "status"]
       = some (DatabaseConnection.healthCheck dbHealthyState).status) ∧
    (∃ e, (Except.error "boom" : Except String HealthStatus) = .error e) :=
  ⟨c9_health_route_always_200.1 dbHealthyState "t",
   c9_health_route_always_200.2 (.error "boom")
     ⟨true, 1, "mongodb", 27017, "todoapp"⟩ "t" rfl⟩
